import Mathlib

/-!
Shallow embedding of `app.py` (RainTomorrow): a form collects weather
measurements into a dictionary `input_data`, assembles the model input
`model_input_values = [input_data[f] for f in features_list]`, and a
pre-trained model predicts the label, rendered as yes/no.

Python numbers (ints from sliders, floats from number inputs) are embedded
as rationals; the dictionary is an association list with Python `dict`
semantics (assignment to a present key replaces its value in place,
assignment to an absent key appends it; lookup of an absent key raises
`KeyError`).
-/

namespace RainTomorrow

/-- Python errors that the embedded fragment can raise:
a dictionary lookup of an absent key (`input_data[feature]`) raises
`KeyError`. -/
inductive PyErr where
  | keyError (key : String)
deriving DecidableEq, Repr

/-- Lines 24–32 of `app.py`: the features the model expects, in the exact
order. -/
def features_list : List String :=
  ["MinTemp", "MaxTemp", "Rainfall", "WindGustSpeed", "WindSpeed9am",
   "WindSpeed3pm", "Humidity9am", "Humidity3pm", "Pressure9am",
   "Pressure3pm", "Cloud9am", "Cloud3pm", "Temp9am", "Temp3pm", "RainToday", "Month",
   "WindGustDir_ENE", "WindGustDir_ESE", "WindGustDir_N", "WindGustDir_NE",
   "WindGustDir_NNE", "WindGustDir_NNW", "WindGustDir_NW", "WindGustDir_S",
   "WindGustDir_SE", "WindGustDir_SSE", "WindGustDir_SSW", "WindGustDir_SW",
   "WindGustDir_W", "WindGustDir_WNW", "WindGustDir_WSW"]

/-- Lines 97–100 of `app.py`: the 15 known wind-gust direction labels. -/
def wind_directions : List String :=
  ["ENE", "ESE", "N", "NE", "NNE", "NNW", "NW", "S", "SE", "SSE",
   "SSW", "SW", "W", "WNW", "WSW"]

/-- One user interaction's worth of widget values, `app.py` lines 45–107:
number inputs are floats (embedded as `Rat`), the humidity/cloud/month
sliders are integers, `rain_today_option` is the radio value ("No"/"Yes"),
and `selected_wind_dir` is the direction radio value
("None" or one of `wind_directions`). -/
structure WeatherObservation where
  MinTemp : Rat
  MaxTemp : Rat
  Rainfall : Rat
  Humidity9am : Int
  Humidity3pm : Int
  WindGustSpeed : Rat
  WindSpeed9am : Rat
  WindSpeed3pm : Rat
  Pressure9am : Rat
  Pressure3pm : Rat
  Cloud9am : Int
  Cloud3pm : Int
  Temp9am : Rat
  Temp3pm : Rat
  rain_today_option : String
  Month : Int
  selected_wind_dir : String
deriving DecidableEq, Repr

/-- The ranges the input widgets enforce (`st.slider(lo, hi, default)` only
produces values in `[lo, hi]`; the radios only produce their listed
options): Humidity sliders 0–100, Cloud sliders 0–9, Month slider 1–12,
RainToday radio ("No", "Yes"), direction radio "None" plus the 15 labels. -/
def validObservation (obs : WeatherObservation) : Prop :=
  0 ≤ obs.Humidity9am ∧ obs.Humidity9am ≤ 100 ∧
  0 ≤ obs.Humidity3pm ∧ obs.Humidity3pm ≤ 100 ∧
  0 ≤ obs.Cloud9am ∧ obs.Cloud9am ≤ 9 ∧
  0 ≤ obs.Cloud3pm ∧ obs.Cloud3pm ≤ 9 ∧
  1 ≤ obs.Month ∧ obs.Month ≤ 12 ∧
  (obs.rain_today_option = "No" ∨ obs.rain_today_option = "Yes") ∧
  obs.selected_wind_dir ∈ "None" :: wind_directions

instance validObservation.decidable : DecidablePred validObservation := fun obs => by
  unfold validObservation
  infer_instance

/-- Python `dict` assignment `d[k] = v`: replace the value of a present key
in place, append an absent key at the end. -/
def dictSet : List (String × Rat) → String → Rat → List (String × Rat)
  | [], k, v => [(k, v)]
  | (k', v') :: rest, k, v =>
      if k' = k then (k', v) :: rest else (k', v') :: dictSet rest k v

/-- Python `dict` subscript `d[k]`: the value of the key, or `KeyError`. -/
def dictGet : List (String × Rat) → String → Except PyErr Rat
  | [], k => .error (.keyError k)
  | (k', v') :: rest, k => if k' = k then .ok v' else dictGet rest k

/-- Lines 45–93 of `app.py`: the dictionary after the sixteen scalar widgets
have stored their values, in the script's insertion order.
`input_data["RainToday"] = 1 if rain_today_option == "Yes" else 0` (with Python quoting)
(line 91) and the Month slider value (line 93). -/
def numeric_input_data (obs : WeatherObservation) : List (String × Rat) :=
  [("MinTemp", obs.MinTemp), ("MaxTemp", obs.MaxTemp), ("Rainfall", obs.Rainfall),
   ("Humidity9am", (obs.Humidity9am : Rat)), ("Humidity3pm", (obs.Humidity3pm : Rat)),
   ("WindGustSpeed", obs.WindGustSpeed), ("WindSpeed9am", obs.WindSpeed9am),
   ("WindSpeed3pm", obs.WindSpeed3pm), ("Pressure9am", obs.Pressure9am),
   ("Pressure3pm", obs.Pressure3pm), ("Cloud9am", (obs.Cloud9am : Rat)),
   ("Cloud3pm", (obs.Cloud3pm : Rat)), ("Temp9am", obs.Temp9am),
   ("Temp3pm", obs.Temp3pm),
   ("RainToday", if obs.rain_today_option = "Yes" then 1 else 0),
   ("Month", (obs.Month : Rat))]

/-- Lines 110–111 of `app.py`: initialize all one-hot wind direction features
to 0. -/
def init_wind_flags (d : List (String × Rat)) : List (String × Rat) :=
  wind_directions.foldl (fun acc direction => dictSet acc ("WindGustDir_" ++ direction) 0) d

/-- Lines 114–115 of `app.py`: set the selected wind direction to 1 if one is
chosen (the guard `if selected_wind_dir != "None"` with Python quoting). -/
def set_selected_wind (d : List (String × Rat)) (sel : String) : List (String × Rat) :=
  if sel ≠ "None" then dictSet d ("WindGustDir_" ++ sel) 1 else d

/-- The complete `input_data` dictionary as the script leaves it just
before the predict button's handler. -/
def input_data (obs : WeatherObservation) : List (String × Rat) :=
  set_selected_wind (init_wind_flags (numeric_input_data obs)) obs.selected_wind_dir

/-- Line 123 of `app.py`:
`model_input_values = [input_data[feature] for feature in features_list]`,
raising `KeyError` at the first feature absent from the dictionary. -/
def model_input_values (d : List (String × Rat)) : List String → Except PyErr (List Rat)
  | [] => .ok []
  | f :: fs =>
      match dictGet d f with
      | .error e => .error e
      | .ok v =>
          match model_input_values d fs with
          | .error e => .error e
          | .ok rest => .ok (v :: rest)

/-- The feature vector assembled for the predictor from one observation:
lines 34–123 of `app.py` end to end. -/
def build (obs : WeatherObservation) : Except PyErr (List Rat) :=
  model_input_values (input_data obs) features_list

/-- One one-hot flag as the script leaves it: 1 exactly when this
direction was the (non-"None") selection, 0 otherwise. -/
def oneHot (sel d : String) : Rat := if sel = d then 1 else 0

/-- The closed form of the feature vector: the sixteen scalars in
`features_list` order followed by the fifteen one-hot direction flags. -/
def explicitVector (obs : WeatherObservation) : List Rat :=
  [obs.MinTemp, obs.MaxTemp, obs.Rainfall, obs.WindGustSpeed, obs.WindSpeed9am,
   obs.WindSpeed3pm, (obs.Humidity9am : Rat), (obs.Humidity3pm : Rat),
   obs.Pressure9am, obs.Pressure3pm, (obs.Cloud9am : Rat), (obs.Cloud3pm : Rat),
   obs.Temp9am, obs.Temp3pm,
   (if obs.rain_today_option = "Yes" then 1 else 0), (obs.Month : Rat)]
  ++ wind_directions.map (fun d => oneHot obs.selected_wind_dir d)

/-! ### Evaluation lemmas -/

set_option maxHeartbeats 1000000 in
/-- After the initialization loop, the dictionary is the sixteen scalar
entries followed by the fifteen wind keys, all 0. -/
lemma init_wind_flags_eq (obs : WeatherObservation) :
    init_wind_flags (numeric_input_data obs) =
      numeric_input_data obs ++ wind_directions.map (fun d => ("WindGustDir_" ++ d, 0)) := by
  simp [init_wind_flags, numeric_input_data, dictSet, wind_directions]

set_option maxHeartbeats 3200000 in
/-- Setting the selection (for a selection the direction radio can produce)
turns the all-zero flags into the one-hot flags. -/
lemma set_selected_wind_eq (obs : WeatherObservation)
    (h : obs.selected_wind_dir ∈ "None" :: wind_directions) :
    set_selected_wind
      (numeric_input_data obs ++ wind_directions.map (fun d => ("WindGustDir_" ++ d, 0)))
      obs.selected_wind_dir =
      numeric_input_data obs ++
        wind_directions.map (fun d => ("WindGustDir_" ++ d, oneHot obs.selected_wind_dir d)) := by
  obtain ⟨mt, xt, rf, h9, h3, wgs, ws9, ws3, p9, p3, c9, c3, t9, t3, rt, mo, sel⟩ := obs
  simp only [wind_directions, List.mem_cons, List.not_mem_nil, or_false] at h
  rcases h with h | h | h | h | h | h | h | h | h | h | h | h | h | h | h | h <;> subst h <;>
    simp [set_selected_wind, numeric_input_data, dictSet, wind_directions, oneHot]

/-- With a selection from the direction radio ("None" or a known label),
the dictionary ends with the fifteen wind keys in `wind_directions` order,
holding 1 exactly at the selected label. -/
lemma input_data_eq_known (obs : WeatherObservation)
    (h : obs.selected_wind_dir ∈ "None" :: wind_directions) :
    input_data obs =
      numeric_input_data obs ++
        wind_directions.map (fun d => ("WindGustDir_" ++ d, oneHot obs.selected_wind_dir d)) := by
  unfold input_data
  rw [init_wind_flags_eq]
  exact set_selected_wind_eq obs h

set_option maxHeartbeats 1600000 in
/-- Reading the 31 features out of the dictionary in closed form yields the
closed-form vector. -/
lemma model_input_values_flags (obs : WeatherObservation) :
    model_input_values
      (numeric_input_data obs ++
        wind_directions.map (fun d => ("WindGustDir_" ++ d, oneHot obs.selected_wind_dir d)))
      features_list = .ok (explicitVector obs) := by
  simp [model_input_values, numeric_input_data, dictGet, features_list, wind_directions,
    explicitVector]

/-- Master evaluation: for any selection the direction radio can produce,
the build succeeds and equals the closed-form vector. -/
lemma build_eq_explicit (obs : WeatherObservation)
    (h : obs.selected_wind_dir ∈ "None" :: wind_directions) :
    build obs = .ok (explicitVector obs) := by
  unfold build
  rw [input_data_eq_known obs h]
  exact model_input_values_flags obs

lemma sel_mem_of_valid {obs : WeatherObservation} (h : validObservation obs) :
    obs.selected_wind_dir ∈ "None" :: wind_directions := by
  obtain ⟨-, -, -, -, -, -, -, -, -, -, -, hsel⟩ := h
  exact hsel

/-- Each one-hot flag is 0 or 1. -/
lemma oneHot_zero_or_one (sel d : String) : oneHot sel d = 0 ∨ oneHot sel d = 1 := by
  unfold oneHot
  split
  · right; rfl
  · left; rfl

/-- The tail of the closed-form vector is the flag list. -/
lemma explicitVector_drop16 (obs : WeatherObservation) :
    (explicitVector obs).drop 16 = wind_directions.map (fun d => oneHot obs.selected_wind_dir d) := rfl

/-- The widget-default observation of `app.py` (the `value=...`/default
arguments of the input widgets). -/
def defaultObservation : WeatherObservation :=
  { MinTemp := 13.4, MaxTemp := 22.9, Rainfall := 0.6, Humidity9am := 71, Humidity3pm := 22,
    WindGustSpeed := 44.0, WindSpeed9am := 20.0, WindSpeed3pm := 24.0,
    Pressure9am := 1007.7, Pressure3pm := 1007.1, Cloud9am := 8, Cloud3pm := 5,
    Temp9am := 16.9, Temp3pm := 21.8, rain_today_option := "No", Month := 12,
    selected_wind_dir := "None" }

/-! ### Claims -/

/-- C1: for every valid WeatherObservation (all 16 scalar fields present
plus a wind-gust direction selection), the feature vector assembled for
the predictor has exactly 31 elements. -/
theorem C1_build_length (obs : WeatherObservation) (h : validObservation obs) :
    ∃ v, build obs = Except.ok v ∧ v.length = 31 :=
  ⟨explicitVector obs, build_eq_explicit obs (sel_mem_of_valid h), rfl⟩

theorem C1_witness :
    validObservation defaultObservation ∧
      ∃ v, build defaultObservation = Except.ok v ∧ v.length = 31 :=
  ⟨by decide, C1_build_length defaultObservation (by decide)⟩

/-- C2: for every valid WeatherObservation, the elements of the built
feature vector appear in exactly the fixed order MinTemp, MaxTemp,
Rainfall, WindGustSpeed, WindSpeed9am, WindSpeed3pm, Humidity9am,
Humidity3pm, Pressure9am, Pressure3pm, Cloud9am, Cloud3pm, Temp9am,
Temp3pm, RainToday, Month, then the 15 one-hot direction flags in the
order ENE, ESE, N, NE, NNE, NNW, NW, S, SE, SSE, SSW, SW, W, WNW, WSW,
each numeric field passed through unchanged. -/
theorem C2_field_order (obs : WeatherObservation) (h : validObservation obs) :
    build obs = Except.ok
      [obs.MinTemp, obs.MaxTemp, obs.Rainfall, obs.WindGustSpeed, obs.WindSpeed9am,
       obs.WindSpeed3pm, (obs.Humidity9am : Rat), (obs.Humidity3pm : Rat),
       obs.Pressure9am, obs.Pressure3pm, (obs.Cloud9am : Rat), (obs.Cloud3pm : Rat),
       obs.Temp9am, obs.Temp3pm,
       (if obs.rain_today_option = "Yes" then 1 else 0), (obs.Month : Rat),
       (if obs.selected_wind_dir = "ENE" then 1 else 0),
       (if obs.selected_wind_dir = "ESE" then 1 else 0),
       (if obs.selected_wind_dir = "N" then 1 else 0),
       (if obs.selected_wind_dir = "NE" then 1 else 0),
       (if obs.selected_wind_dir = "NNE" then 1 else 0),
       (if obs.selected_wind_dir = "NNW" then 1 else 0),
       (if obs.selected_wind_dir = "NW" then 1 else 0),
       (if obs.selected_wind_dir = "S" then 1 else 0),
       (if obs.selected_wind_dir = "SE" then 1 else 0),
       (if obs.selected_wind_dir = "SSE" then 1 else 0),
       (if obs.selected_wind_dir = "SSW" then 1 else 0),
       (if obs.selected_wind_dir = "SW" then 1 else 0),
       (if obs.selected_wind_dir = "W" then 1 else 0),
       (if obs.selected_wind_dir = "WNW" then 1 else 0),
       (if obs.selected_wind_dir = "WSW" then 1 else 0)] :=
  build_eq_explicit obs (sel_mem_of_valid h)

theorem C2_witness :
    validObservation defaultObservation ∧
      build defaultObservation = Except.ok
        [13.4, 22.9, 0.6, 44.0, 20.0, 24.0, 71, 22, 1007.7, 1007.1, 8, 5, 16.9, 21.8,
         0, 12, 0, 0, 0, 0, 0, 0, 0, 0, 0, 0, 0, 0, 0, 0, 0] := by
  refine ⟨by decide, ?_⟩
  have h := C2_field_order defaultObservation (by decide)
  simpa [defaultObservation] using h

/-- C3: for every valid WeatherObservation, element 14 (0-indexed) of the
built feature vector equals 1 when RainToday is "Yes" and equals 0 when
RainToday is "No" (and 0 in every other case, the default). -/
theorem C3_rain_today_flag (obs : WeatherObservation) (h : validObservation obs) :
    ∃ v, build obs = Except.ok v ∧
      (obs.rain_today_option = "Yes" → v[14]? = some 1) ∧
      (obs.rain_today_option ≠ "Yes" → v[14]? = some 0) := by
  refine ⟨explicitVector obs, build_eq_explicit obs (sel_mem_of_valid h), ?_, ?_⟩
  · intro hy
    have h14 : (explicitVector obs)[14]? =
        some (if obs.rain_today_option = "Yes" then 1 else 0) := rfl
    rw [h14, if_pos hy]
  · intro hn
    have h14 : (explicitVector obs)[14]? =
        some (if obs.rain_today_option = "Yes" then 1 else 0) := rfl
    rw [h14, if_neg hn]

theorem C3_witness :
    validObservation defaultObservation ∧
      ∃ v, build defaultObservation = Except.ok v ∧
        (defaultObservation.rain_today_option = "Yes" → v[14]? = some 1) ∧
        (defaultObservation.rain_today_option ≠ "Yes" → v[14]? = some 0) :=
  ⟨by decide, C3_rain_today_flag defaultObservation (by decide)⟩

/-- C4: for every valid WeatherObservation and every selectable wind-gust
direction, at most one of the 15 trailing one-hot elements of the built
feature vector equals 1 and every other trailing element equals 0; the
count of ones among the trailing 15 elements is never greater than one. -/
theorem C4_at_most_one_flag (obs : WeatherObservation) (h : validObservation obs) :
    ∃ v, build obs = Except.ok v ∧
      (v.drop 16).countP (fun x => x == 1) ≤ 1 ∧
      ∀ x ∈ v.drop 16, x ≠ 1 → x = 0 := by
  refine ⟨explicitVector obs, build_eq_explicit obs (sel_mem_of_valid h), ?_, ?_⟩
  · rw [explicitVector_drop16]
    have hsel := sel_mem_of_valid h
    simp only [wind_directions, List.mem_cons, List.not_mem_nil, or_false] at hsel
    rcases hsel with hs | hs | hs | hs | hs | hs | hs | hs | hs | hs | hs | hs | hs | hs | hs | hs <;>
      rw [hs] <;> decide
  · rw [explicitVector_drop16]
    intro x hx hne
    simp only [List.mem_map] at hx
    obtain ⟨d, -, rfl⟩ := hx
    rcases oneHot_zero_or_one obs.selected_wind_dir d with h0 | h1
    · exact h0
    · exact absurd h1 hne

theorem C4_witness :
    validObservation defaultObservation ∧
      ∃ v, build defaultObservation = Except.ok v ∧
        (v.drop 16).countP (fun x => x == 1) ≤ 1 ∧
        ∀ x ∈ v.drop 16, x ≠ 1 → x = 0 :=
  ⟨by decide, C4_at_most_one_flag defaultObservation (by decide)⟩

/-! ### Unknown directions: the build degrades to all-zero flags -/

/-- Assigning key `k` does not change the lookup of any other key. -/
lemma dictGet_dictSet_ne (d : List (String × Rat)) (k f : String) (v : Rat) (h : f ≠ k) :
    dictGet (dictSet d k v) f = dictGet d f := by
  induction d with
  | nil =>
      have hk : ¬ (k = f) := fun he => h he.symm
      simp only [dictSet, dictGet, if_neg hk]
  | cons p rest ih =>
      obtain ⟨k', v'⟩ := p
      simp only [dictSet]
      by_cases hk : k' = k
      · rw [if_pos hk]
        have hkf : ¬ (k' = f) := fun he => h (he.symm.trans hk)
        simp only [dictGet, if_neg hkf]
      · rw [if_neg hk]
        simp only [dictGet]
        by_cases hkf : k' = f
        · rw [if_pos hkf, if_pos hkf]
        · rw [if_neg hkf, if_neg hkf]
          exact ih

/-- The wind-key prefix is cancellative. -/
lemma windKey_inj {s t : String} (h : "WindGustDir_" ++ s = "WindGustDir_" ++ t) : s = t := by
  have hd := congrArg String.data h
  rw [String.data_append, String.data_append] at hd
  exact String.ext (List.append_cancel_left hd)

/-- A string whose first 12 characters are not `WindGustDir_` is no wind
key. -/
lemma scalar_ne_windKey (f sel : String) (h : f.data.take 12 ≠ "WindGustDir_".data) :
    f ≠ "WindGustDir_" ++ sel := by
  intro he
  apply h
  rw [he, String.data_append]
  exact List.take_left' rfl

/-- The sixteen scalar feature names. -/
def scalar_features : List String :=
  ["MinTemp", "MaxTemp", "Rainfall", "WindGustSpeed", "WindSpeed9am",
   "WindSpeed3pm", "Humidity9am", "Humidity3pm", "Pressure9am",
   "Pressure3pm", "Cloud9am", "Cloud3pm", "Temp9am", "Temp3pm", "RainToday", "Month"]

/-- The list `features_list` is the scalars followed by the prefixed direction
labels. -/
lemma features_list_eq :
    features_list = scalar_features ++ wind_directions.map (fun d => "WindGustDir_" ++ d) := by
  decide

/-- No feature name coincides with the wind key of an unknown direction. -/
lemma feature_ne_windKey {sel : String} (hsel : sel ∉ wind_directions) :
    ∀ f ∈ features_list, f ≠ "WindGustDir_" ++ sel := by
  intro f hf
  rw [features_list_eq, List.mem_append] at hf
  rcases hf with hf | hf
  · simp only [scalar_features, List.mem_cons, List.not_mem_nil, or_false] at hf
    rcases hf with hf | hf | hf | hf | hf | hf | hf | hf | hf | hf | hf | hf | hf | hf | hf | hf <;>
      subst hf <;> exact scalar_ne_windKey _ _ (by decide)
  · obtain ⟨d, hd, rfl⟩ := List.mem_map.1 hf
    intro he
    exact hsel (windKey_inj he ▸ hd)

/-- If no feature mentions key `k`, assigning `k` leaves the assembled
list unchanged. -/
lemma model_input_values_dictSet_ne (d : List (String × Rat)) (k : String) (v : Rat)
    (fs : List String) (h : ∀ f ∈ fs, f ≠ k) :
    model_input_values (dictSet d k v) fs = model_input_values d fs := by
  induction fs with
  | nil => rfl
  | cons f fs ih =>
      simp only [model_input_values]
      rw [dictGet_dictSet_ne d k f v (h f (List.mem_cons_self f fs))]
      rw [ih (fun g hg => h g (List.mem_cons_of_mem f hg))]

set_option maxHeartbeats 1600000 in
/-- Reading the features out of the dictionary with all-zero flags. -/
lemma model_input_values_zero_flags (obs : WeatherObservation) :
    model_input_values
      (numeric_input_data obs ++ wind_directions.map (fun d => ("WindGustDir_" ++ d, 0)))
      features_list =
      Except.ok
        ([obs.MinTemp, obs.MaxTemp, obs.Rainfall, obs.WindGustSpeed, obs.WindSpeed9am,
          obs.WindSpeed3pm, (obs.Humidity9am : Rat), (obs.Humidity3pm : Rat),
          obs.Pressure9am, obs.Pressure3pm, (obs.Cloud9am : Rat), (obs.Cloud3pm : Rat),
          obs.Temp9am, obs.Temp3pm,
          (if obs.rain_today_option = "Yes" then 1 else 0), (obs.Month : Rat)]
         ++ wind_directions.map (fun _ => (0 : Rat))) := by
  simp [model_input_values, numeric_input_data, dictGet, features_list, wind_directions]

/-- For an unknown direction the closed-form vector has all-zero flags. -/
lemma explicitVector_zero_flags (obs : WeatherObservation)
    (hsel : obs.selected_wind_dir ∉ wind_directions) :
    explicitVector obs =
      [obs.MinTemp, obs.MaxTemp, obs.Rainfall, obs.WindGustSpeed, obs.WindSpeed9am,
       obs.WindSpeed3pm, (obs.Humidity9am : Rat), (obs.Humidity3pm : Rat),
       obs.Pressure9am, obs.Pressure3pm, (obs.Cloud9am : Rat), (obs.Cloud3pm : Rat),
       obs.Temp9am, obs.Temp3pm,
       (if obs.rain_today_option = "Yes" then 1 else 0), (obs.Month : Rat)]
      ++ wind_directions.map (fun _ => (0 : Rat)) := by
  simp only [wind_directions, List.mem_cons, List.not_mem_nil, or_false, not_or] at hsel
  obtain ⟨e1, e2, e3, e4, e5, e6, e7, e8, e9, e10, e11, e12, e13, e14, e15⟩ := hsel
  simp [explicitVector, oneHot, wind_directions, e1, e2, e3, e4, e5, e6, e7, e8, e9,
    e10, e11, e12, e13, e14, e15]

/-- The build equals the closed-form vector for every observation, with a
direction known, "None", or arbitrary garbage. -/
lemma build_eq_explicit_all (obs : WeatherObservation) :
    build obs = Except.ok (explicitVector obs) := by
  by_cases hmem : obs.selected_wind_dir ∈ "None" :: wind_directions
  · exact build_eq_explicit obs hmem
  · simp only [List.mem_cons, not_or] at hmem
    obtain ⟨hne, hnd⟩ := hmem
    unfold build input_data set_selected_wind
    rw [init_wind_flags_eq, if_pos hne]
    rw [model_input_values_dictSet_ne _ _ _ _ (feature_ne_windKey hnd)]
    rw [model_input_values_zero_flags, explicitVector_zero_flags obs hnd]

/-- C5: if the observed wind-gust direction is not one of the 15 known
labels (e.g. "unknown" or unspecified), building the feature vector does
not fail and all 15 one-hot direction elements are 0; when the direction
is one of the 15 known labels, exactly one flag — the one at that label's
position — is 1. -/
theorem C5_unknown_direction (obs : WeatherObservation) :
    ∃ v, build obs = Except.ok v ∧
      (obs.selected_wind_dir ∉ wind_directions → ∀ x ∈ v.drop 16, x = 0) ∧
      (obs.selected_wind_dir ∈ wind_directions →
        v.drop 16 =
          wind_directions.map (fun d => if obs.selected_wind_dir = d then (1 : Rat) else 0) ∧
        (v.drop 16).countP (fun x => x == 1) = 1) := by
  refine ⟨explicitVector obs, build_eq_explicit_all obs, ?_, ?_⟩
  · intro hnd x hx
    rw [explicitVector_drop16] at hx
    simp only [List.mem_map] at hx
    obtain ⟨d, hd, rfl⟩ := hx
    unfold oneHot
    rw [if_neg (fun he => hnd (by rw [he]; exact hd))]
  · intro hd
    refine ⟨by rw [explicitVector_drop16]; rfl, ?_⟩
    rw [explicitVector_drop16]
    simp only [wind_directions, List.mem_cons, List.not_mem_nil, or_false] at hd
    rcases hd with hs | hs | hs | hs | hs | hs | hs | hs | hs | hs | hs | hs | hs | hs | hs <;>
      rw [hs] <;> decide

/-- The spec's unknown-direction example input: the widget defaults with a
garbage direction string. -/
def unknownDirObservation : WeatherObservation :=
  { defaultObservation with selected_wind_dir := "unknown-garbage" }

/-- The spec's known-direction example input: the widget defaults with the
direction "W". -/
def westDirObservation : WeatherObservation :=
  { defaultObservation with selected_wind_dir := "W" }

theorem C5_witness :
    (("unknown-garbage" ∉ wind_directions) ∧
      ∃ v, build unknownDirObservation = Except.ok v ∧ ∀ x ∈ v.drop 16, x = 0) ∧
    (("W" ∈ wind_directions) ∧
      ∃ v, build westDirObservation = Except.ok v ∧
        (v.drop 16).countP (fun x => x == 1) = 1) := by
  constructor
  · refine ⟨by decide, ?_⟩
    obtain ⟨v, hv, hz, -⟩ := C5_unknown_direction unknownDirObservation
    exact ⟨v, hv, hz (by decide)⟩
  · refine ⟨by decide, ?_⟩
    obtain ⟨v, hv, -, hone⟩ := C5_unknown_direction westDirObservation
    exact ⟨v, hv, (hone (by decide)).2⟩

/-- C6: building the feature vector is a pure, deterministic function of
the observation: two builds from the same field values and direction
selection yield element-wise identical vectors, with no hidden state
affecting the result. -/
theorem C6_deterministic (o1 o2 : WeatherObservation)
    (h : o1.MinTemp = o2.MinTemp ∧ o1.MaxTemp = o2.MaxTemp ∧ o1.Rainfall = o2.Rainfall ∧
      o1.Humidity9am = o2.Humidity9am ∧ o1.Humidity3pm = o2.Humidity3pm ∧
      o1.WindGustSpeed = o2.WindGustSpeed ∧ o1.WindSpeed9am = o2.WindSpeed9am ∧
      o1.WindSpeed3pm = o2.WindSpeed3pm ∧ o1.Pressure9am = o2.Pressure9am ∧
      o1.Pressure3pm = o2.Pressure3pm ∧ o1.Cloud9am = o2.Cloud9am ∧
      o1.Cloud3pm = o2.Cloud3pm ∧ o1.Temp9am = o2.Temp9am ∧ o1.Temp3pm = o2.Temp3pm ∧
      o1.rain_today_option = o2.rain_today_option ∧ o1.Month = o2.Month ∧
      o1.selected_wind_dir = o2.selected_wind_dir) :
    build o1 = build o2 ∧
      ∀ i : Nat, (build o1).toOption.bind (fun v => v[i]?) =
        (build o2).toOption.bind (fun v => v[i]?) := by
  obtain ⟨mt, xt, rf, h9, h3, wgs, ws9, ws3, p9, p3, c9, c3, t9, t3, rt, mo, sel⟩ := o1
  obtain ⟨mt', xt', rf', h9', h3', wgs', ws9', ws3', p9', p3', c9', c3', t9', t3', rt', mo', sel'⟩ := o2
  simp only at h
  obtain ⟨e1, e2, e3, e4, e5, e6, e7, e8, e9, e10, e11, e12, e13, e14, e15, e16, e17⟩ := h
  subst e1; subst e2; subst e3; subst e4; subst e5; subst e6; subst e7; subst e8
  subst e9; subst e10; subst e11; subst e12; subst e13; subst e14; subst e15
  subst e16; subst e17
  exact ⟨rfl, fun _ => rfl⟩

theorem C6_witness :
    build defaultObservation = build defaultObservation ∧
      ∀ i : Nat, (build defaultObservation).toOption.bind (fun v => v[i]?) =
        (build defaultObservation).toOption.bind (fun v => v[i]?) :=
  C6_deterministic defaultObservation defaultObservation
    ⟨rfl, rfl, rfl, rfl, rfl, rfl, rfl, rfl, rfl, rfl, rfl, rfl, rfl, rfl, rfl, rfl, rfl⟩

/-- Looking up an unbound key raises `KeyError` for that key. -/
lemma dictGet_error_of_not_mem (d : List (String × Rat)) (g : String)
    (h : ∀ p ∈ d, p.1 ≠ g) : dictGet d g = Except.error (PyErr.keyError g) := by
  induction d with
  | nil => rfl
  | cons p rest ih =>
      obtain ⟨k', v'⟩ := p
      have hk : ¬ (k' = g) := h (k', v') (List.mem_cons_self _ _)
      simp only [dictGet, if_neg hk]
      exact ih (fun q hq => h q (List.mem_cons_of_mem _ hq))

/-- A failing lookup means the key is unbound, and the error names it. -/
lemma dictGet_not_mem_of_error (d : List (String × Rat)) (g : String) (e : PyErr)
    (h : dictGet d g = Except.error e) :
    (∀ p ∈ d, p.1 ≠ g) ∧ e = PyErr.keyError g := by
  induction d with
  | nil =>
      refine ⟨fun p hp => absurd hp (List.not_mem_nil p), ?_⟩
      simp only [dictGet, Except.error.injEq] at h
      exact h.symm
  | cons p rest ih =>
      obtain ⟨k', v'⟩ := p
      by_cases hk : k' = g
      · simp only [dictGet, if_pos hk] at h
        exact Except.noConfusion h
      · simp only [dictGet, if_neg hk] at h
        obtain ⟨hall, he⟩ := ih h
        refine ⟨fun q hq => ?_, he⟩
        rcases List.mem_cons.1 hq with rfl | hq'
        · exact hk
        · exact hall q hq'

/-- If some requested feature is unbound, the assembly raises `KeyError`
for an unbound field. -/
lemma model_input_values_error_of_missing (d : List (String × Rat)) (fs : List String) :
    ∀ g ∈ fs, (∀ p ∈ d, p.1 ≠ g) →
      ∃ g', model_input_values d fs = Except.error (PyErr.keyError g') ∧
        ∀ p ∈ d, p.1 ≠ g' := by
  induction fs with
  | nil => intro g hg
           exact absurd hg (List.not_mem_nil g)
  | cons a fs ih =>
      intro g hg hmg
      rcases he : dictGet d a with e | v
      · obtain ⟨hall, rfl⟩ := dictGet_not_mem_of_error d a e he
        refine ⟨a, ?_, hall⟩
        simp only [model_input_values, he]
      · rcases List.mem_cons.1 hg with rfl | hg'
        · rw [dictGet_error_of_not_mem d g hmg] at he
          exact Except.noConfusion he
        · obtain ⟨g', hmv, hall'⟩ := ih g hg' hmg
          refine ⟨g', ?_, hall'⟩
          simp only [model_input_values, he, hmv]

/-- C7: if any required numeric field of the observation is missing from
the input dictionary, assembling the feature vector fails with the
designated missing-field error — a `KeyError` naming an unbound field,
the code's realization of the spec's InvalidObservation — rather than
succeeding with a silent default. -/
theorem C7_missing_field_fails (d : List (String × Rat)) (f : String)
    (hf : f ∈ features_list) (hmiss : ∀ p ∈ d, p.1 ≠ f) :
    ∃ g, model_input_values d features_list = Except.error (PyErr.keyError g) ∧
      ∀ p ∈ d, p.1 ≠ g :=
  model_input_values_error_of_missing d features_list f hf hmiss

theorem C7_witness :
    ("MinTemp" ∈ features_list) ∧
      ∃ g, model_input_values [] features_list = Except.error (PyErr.keyError g) ∧
        ∀ p ∈ ([] : List (String × Rat)), p.1 ≠ g :=
  ⟨by decide,
   C7_missing_field_fails [] "MinTemp" (by decide) (fun p hp => absurd hp (List.not_mem_nil p))⟩

/-- The widget defaults with all four boundary values: Humidity9am 0,
Humidity3pm 100, Cloud9am 0, Cloud3pm 9. -/
def boundaryObservation : WeatherObservation :=
  { defaultObservation with Humidity9am := 0, Humidity3pm := 100, Cloud9am := 0, Cloud3pm := 9 }

/-- The widget defaults with Humidity9am pushed past the slider maximum. -/
def outOfRangeObservation : WeatherObservation :=
  { defaultObservation with Humidity9am := 101 }

/-- C8: boundary values are accepted — Humidity 0 and 100 and Cloud 0 and
9 are valid observation inputs and are passed into the feature vector
(positions 6, 7, 10, 11) — while values outside the documented widget
ranges are rejected as invalid observations. -/
theorem C8_boundary_values :
    (∀ obs : WeatherObservation,
      obs.Humidity9am = 0 → obs.Humidity3pm = 100 → obs.Cloud9am = 0 → obs.Cloud3pm = 9 →
      1 ≤ obs.Month → obs.Month ≤ 12 →
      (obs.rain_today_option = "No" ∨ obs.rain_today_option = "Yes") →
      obs.selected_wind_dir ∈ "None" :: wind_directions →
      validObservation obs ∧
        ∃ v, build obs = Except.ok v ∧
          v[6]? = some 0 ∧ v[7]? = some 100 ∧ v[10]? = some 0 ∧ v[11]? = some 9) ∧
    (∀ obs : WeatherObservation,
      (obs.Humidity9am < 0 ∨ 100 < obs.Humidity9am ∨
       obs.Humidity3pm < 0 ∨ 100 < obs.Humidity3pm ∨
       obs.Cloud9am < 0 ∨ 9 < obs.Cloud9am ∨ obs.Cloud3pm < 0 ∨ 9 < obs.Cloud3pm) →
      ¬ validObservation obs) := by
  constructor
  · intro obs h1 h2 h3 h4 hm1 hm2 hrt hsel
    refine ⟨⟨by omega, by omega, by omega, by omega, by omega, by omega, by omega, by omega,
      hm1, hm2, hrt, hsel⟩, explicitVector obs, build_eq_explicit_all obs, ?_, ?_, ?_, ?_⟩
    · have e6 : (explicitVector obs)[6]? = some ((obs.Humidity9am : Int) : Rat) := rfl
      rw [e6, h1]; norm_num
    · have e7 : (explicitVector obs)[7]? = some ((obs.Humidity3pm : Int) : Rat) := rfl
      rw [e7, h2]; norm_num
    · have e10 : (explicitVector obs)[10]? = some ((obs.Cloud9am : Int) : Rat) := rfl
      rw [e10, h3]; norm_num
    · have e11 : (explicitVector obs)[11]? = some ((obs.Cloud3pm : Int) : Rat) := rfl
      rw [e11, h4]; norm_num
  · intro obs hbad hval
    obtain ⟨b1, b2, b3, b4, b5, b6, b7, b8, -, -, -, -⟩ := hval
    rcases hbad with hb | hb | hb | hb | hb | hb | hb | hb <;> omega

theorem C8_witness :
    (validObservation boundaryObservation ∧
      ∃ v, build boundaryObservation = Except.ok v ∧
        v[6]? = some 0 ∧ v[7]? = some 100 ∧ v[10]? = some 0 ∧ v[11]? = some 9) ∧
    ¬ validObservation outOfRangeObservation :=
  ⟨C8_boundary_values.1 boundaryObservation rfl rfl rfl rfl (by decide) (by decide)
      (Or.inl rfl) (by decide),
   C8_boundary_values.2 outOfRangeObservation (Or.inr (Or.inl (by decide)))⟩

/-! ### Prediction and rendering, `app.py` lines 120–147 -/

/-- What one click of the predict button renders: `app.py` lines 129–147.
`prediction[0] == "No"` (Python quoting) shows the "No ☀️" metric, anything else the
"Yes 🌧️" metric; any exception raised inside the `try` block —
including the `IndexError` of `prediction[0]` on an empty result — is
caught and shown with `st.error`. -/
inductive RenderResult where
  | noRain
  | rain
  | predictionError (msg : String)
deriving DecidableEq, Repr

/-- Lines 130–147 of `app.py`: the try/except around `model.predict` and the
rendering of `prediction[0]`. -/
def renderPrediction : Except String (List String) → RenderResult
  | .error e => .predictionError e
  | .ok [] => .predictionError "IndexError: index 0 is out of bounds"
  | .ok (p :: _) => if p = "No" then .noRain else .rain

/-- What one run of the script ends in: `st.stop()` (lines 13, 16) or a
rendered prediction outcome. -/
inductive StepOutcome where
  | stopped (msg : String)
  | rendered (r : RenderResult)
deriving DecidableEq, Repr

/-- One run of the script at a predict click: a model-artifact load
failure stops the script (lines 8–16); otherwise `model.predict` is
called exactly once (line 131) — call index 0 of the predictor oracle —
and its result is rendered. -/
def appStep (loadResult : Except String Unit)
    (predict : Nat → Except String (List String)) : StepOutcome :=
  match loadResult with
  | .error e => .stopped e
  | .ok _ => .rendered (renderPrediction (predict 0))

/-- C9: any exception raised by the external predictor's predict call is
surfaced to the user as a prediction failure and is not retried (the
outcome depends only on the first call of the predictor); the failure is
recoverable: with the same loaded model the script never stops, and a
later run renders a fresh prediction. -/
theorem C9_predict_error_surfaced (predict : Nat → Except String (List String)) (e : String)
    (h : predict 0 = Except.error e) :
    appStep (Except.ok ()) predict = StepOutcome.rendered (RenderResult.predictionError e) ∧
      (∀ predict2 : Nat → Except String (List String), predict2 0 = predict 0 →
        appStep (Except.ok ()) predict2 = appStep (Except.ok ()) predict) ∧
      (∀ retry : Nat → Except String (List String),
        appStep (Except.ok ()) retry = StepOutcome.rendered (renderPrediction (retry 0))) := by
  refine ⟨?_, ?_, fun retry => rfl⟩
  · simp only [appStep, h, renderPrediction]
  · intro p2 h2
    simp only [appStep, h2]

theorem C9_witness :
    ((fun _ : Nat => (Except.error "boom" : Except String (List String))) 0 =
        Except.error "boom") ∧
      appStep (Except.ok ()) (fun _ => Except.error "boom") =
        StepOutcome.rendered (RenderResult.predictionError "boom") :=
  ⟨rfl, (C9_predict_error_surfaced (fun _ => Except.error "boom") "boom" rfl).1⟩

/-- C10: the rendered outcome is "No" (no rain tomorrow) exactly when the
predictor's returned label is the string "No"; for every other returned
label — including labels outside Yes/No — the program renders the "Yes"
(rain likely) outcome. -/
theorem C10_no_only_when_label_no (p : String) (rest : List String) :
    (renderPrediction (Except.ok (p :: rest)) = RenderResult.noRain ↔ p = "No") ∧
      (p ≠ "No" → renderPrediction (Except.ok (p :: rest)) = RenderResult.rain) := by
  refine ⟨⟨?_, ?_⟩, ?_⟩
  · intro h
    by_contra hne
    simp only [renderPrediction, if_neg hne] at h
    exact RenderResult.noConfusion h
  · intro h
    simp only [renderPrediction, if_pos h]
  · intro h
    simp only [renderPrediction, if_neg h]

theorem C10_witness :
    (("Maybe" : String) ≠ "No") ∧
      renderPrediction (Except.ok ["Maybe"]) = RenderResult.rain :=
  ⟨by decide, (C10_no_only_when_label_no "Maybe" []).2 (by decide)⟩

end RainTomorrow
